import Mathlib

/-!
Verification of the `useControllable` hook (src/src/useControllable.ts).

The hook is embedded as a small state machine.  TypeScript's
`T | undefined` becomes `Option α`, with `none` as the absent/undefined
marker.  Change handlers are opaque identifiers of type `κ`; an update
records which handler was invoked and with which value, as a list of
`(handler, value)` pairs, so "called exactly once with x" is expressible.

Correspondence with the source:
  * `Config`      — `UseControllableStateParams<T>`: the fields
                    `value?`, `defaultValue?`, `onChange?`.
  * `Session.internalValue` — the `useState<T | undefined>(defaultValue)`
                    cell.
  * `Session.onChangeRef`   — the `useRef(onChange)` cell, refreshed on
                    every render by `onChangeRef.current = onChange`.
  * `Session.isControlled`  — the `isControlled` boolean captured by the
                    `useCallback` closure; the callback's dependency list
                    is `[isControlled]`, so after every render the
                    captured flag equals `value !== undefined` of that
                    render's configuration.
  * `initSession` — the first render: `useState` seeds the internal cell
                    from `defaultValue` (unconditionally), `useRef` seeds
                    the handler ref.
  * `render`      — a subsequent render with a (possibly new)
                    configuration: refreshes the handler ref and the
                    captured controlled flag; touches nothing else.
  * `readValue`   — `isControlled ? value : internalValue`, the first
                    component of the returned pair.
  * `update`      — the `setValue` callback: if not controlled, overwrite
                    the internal cell with `nextValue`; then
                    `onChangeRef.current?.(nextValue)`.
-/

namespace UseControllable

/-- `UseControllableStateParams<T>`: the configuration supplied at each
render.  `none` is the absent/`undefined` marker. -/
structure Config (α : Type) (κ : Type) where
  value : Option α
  defaultValue : Option α
  onChange : Option κ
  deriving Repr, DecidableEq

/-- The per-session mutable state of one hook instantiation. -/
structure Session (α : Type) (κ : Type) where
  internalValue : Option α
  onChangeRef : Option κ
  isControlled : Bool
  deriving Repr, DecidableEq

/-- First render of the hook: `useState<T | undefined>(defaultValue)` seeds
the internal cell (regardless of mode), `useRef(onChange)` seeds the
handler ref, and the `useCallback` closure captures
`isControlled = value !== undefined`. -/
def initSession (cfg : Config α κ) : Session α κ :=
  { internalValue := cfg.defaultValue
    onChangeRef := cfg.onChange
    isControlled := cfg.value.isSome }

/-- A subsequent render with configuration `cfg`:
`onChangeRef.current = onChange` refreshes the ref, and the `useCallback`
dependency `[isControlled]` keeps the captured flag equal to the current
`value !== undefined`.  The `useState` cell is not re-seeded. -/
def render (cfg : Config α κ) (s : Session α κ) : Session α κ :=
  { s with onChangeRef := cfg.onChange
           isControlled := cfg.value.isSome }

/-- The value component of the returned pair:
`isControlled ? value : internalValue`. -/
def readValue (cfg : Config α κ) (s : Session α κ) : Option α :=
  if cfg.value.isSome then cfg.value else s.internalValue

/-- The `setValue` callback.  Returns the new session state together with
the list of handler invocations performed (each as `(handler, argument)`):
`if (!isControlled) setInternalValue(nextValue); onChangeRef.current?.(nextValue)`. -/
def update (s : Session α κ) (x : α) : Session α κ × List (κ × α) :=
  (if s.isControlled then s else { s with internalValue := some x },
   (s.onChangeRef.map fun h => (h, x)).toList)

/-- One host-driven step: either a re-render with a configuration, or a
call of the `setValue` callback. -/
inductive Op (α : Type) (κ : Type) where
  | render (cfg : Config α κ)
  | update (x : α)

/-- Run a list of host steps, accumulating the handler invocations. -/
def runOps : List (Op α κ) → Session α κ → Session α κ × List (κ × α)
  | [], s => (s, [])
  | Op.render cfg :: ops, s => runOps ops (render cfg s)
  | Op.update x :: ops, s =>
      let (s', log) := update s x
      let (s'', log') := runOps ops s'
      (s'', log ++ log')

/-- Every render in the step list supplies an external value
(a controlled period of the session). -/
def allControlled : List (Op α κ) → Bool
  | [] => true
  | Op.render cfg :: ops => cfg.value.isSome && allControlled ops
  | Op.update _ :: ops => allControlled ops

/-- During a controlled period (the captured flag is set and every render
keeps supplying an external value), no step touches the internal holder,
and the flag stays set. -/
theorem runOps_controlled_internal (ops : List (Op α κ)) :
    ∀ s : Session α κ, s.isControlled = true → allControlled ops = true →
      (runOps ops s).1.internalValue = s.internalValue ∧
      (runOps ops s).1.isControlled = true := by
  induction ops with
  | nil => intro s hs _; simp [runOps, hs]
  | cons op ops ih =>
    intro s hs hops
    cases op with
    | render cfg =>
      simp only [allControlled, Bool.and_eq_true] at hops
      have h := ih (render cfg s) (by simp [render, hops.1]) hops.2
      simpa [runOps, render] using h
    | update x =>
      simp only [allControlled] at hops
      have h := ih (update s x).1 (by simp [update, hs]) hops
      simpa [runOps, update, hs] using h

/-- C1: The value reported by select is determined solely by presence of
the external value: if `config.value` is present (any defined content,
including falsy values such as zero), the reported value is exactly
`config.value`, echoed untransformed; if it is the absence marker, the
reported value is the session's internal holder. -/
theorem select_determined_by_presence (cfg : Config α κ) (s : Session α κ) :
    (cfg.value.isSome → readValue cfg s = cfg.value) ∧
    (∀ v : α, cfg.value = some v → readValue cfg s = some v) ∧
    (cfg.value = none → readValue cfg s = s.internalValue) := by
  refine ⟨fun h => ?_, fun v hv => ?_, fun h => ?_⟩ <;>
    simp [readValue, *]

/-- Witness for C1, at the falsy-but-defined external value `0`. -/
theorem select_determined_by_presence_witness :
    readValue { value := some 0, defaultValue := some 5, onChange := (none : Option Nat) }
      (initSession { value := some 0, defaultValue := some 5, onChange := (none : Option Nat) })
      = some 0 :=
  (select_determined_by_presence _ _).2.1 0 rfl

/-- C2: In an uncontrolled session, `update x` followed by a read returns
`x`, and the handler configured at the time of the update is invoked
exactly once with exactly `x` (or not at all if none is configured). -/
theorem uncontrolled_update_roundtrip (cfg : Config α κ) (s : Session α κ)
    (x : α) (h : cfg.value = none) :
    readValue cfg (update (render cfg s) x).1 = some x ∧
    (∀ f : κ, cfg.onChange = some f → (update (render cfg s) x).2 = [(f, x)]) ∧
    (cfg.onChange = none → (update (render cfg s) x).2 = []) := by
  refine ⟨?_, fun f hf => ?_, fun hf => ?_⟩ <;>
    simp [readValue, update, render, *]

/-- Witness for C2 at a concrete uncontrolled configuration with handler 7. -/
theorem uncontrolled_update_roundtrip_witness :
    readValue { value := none, defaultValue := some 1, onChange := some 7 }
      (update (render { value := none, defaultValue := some 1, onChange := some 7 }
        (initSession { value := (none : Option Nat), defaultValue := some 1, onChange := some (7 : Nat) })) 9).1
      = some 9 :=
  (uncontrolled_update_roundtrip _ _ 9 rfl).1

/-- C3: In a controlled session (external value `v` present), `update x`
leaves the internal holder unchanged, subsequent reads under the same
configuration still report `v`, and the configured handler is still
invoked exactly once with `x`. -/
theorem controlled_update_frame (cfg : Config α κ) (s : Session α κ)
    (x v : α) (h : cfg.value = some v) :
    (update (render cfg s) x).1.internalValue = s.internalValue ∧
    readValue cfg (update (render cfg s) x).1 = some v ∧
    (∀ f : κ, cfg.onChange = some f → (update (render cfg s) x).2 = [(f, x)]) ∧
    (cfg.onChange = none → (update (render cfg s) x).2 = []) := by
  refine ⟨?_, ?_, fun f hf => ?_, fun hf => ?_⟩ <;>
    simp [readValue, update, render, *]

/-- Witness for C3 at external value 3, update argument 9, handler 7. -/
theorem controlled_update_frame_witness :
    readValue { value := some 3, defaultValue := none, onChange := some 7 }
      (update (render { value := some 3, defaultValue := none, onChange := some 7 }
        (initSession { value := some 3, defaultValue := (none : Option Nat), onChange := some (7 : Nat) })) 9).1
      = some 3 :=
  (controlled_update_frame _ _ 9 3 rfl).2.1

/-- C4: If the handler is replaced between two renders, an update after the
second render invokes only the newly supplied handler, never the old one. -/
theorem handler_freshness (cfg1 cfg2 : Config α κ) (s : Session α κ) (x : α)
    (f1 f2 : κ) (h1 : cfg1.onChange = some f1) (h2 : cfg2.onChange = some f2)
    (hne : f1 ≠ f2) :
    (update (render cfg2 (render cfg1 s)) x).2 = [(f2, x)] ∧
    (f1, x) ∉ (update (render cfg2 (render cfg1 s)) x).2 := by
  constructor
  · simp [update, render, h2]
  · simp [update, render, h2, hne]

/-- Witness for C4: handlers 1 then 2; the update log is exactly handler 2. -/
theorem handler_freshness_witness :
    (update (render { value := none, defaultValue := none, onChange := some 2 }
        (render { value := (none : Option Nat), defaultValue := none, onChange := some (1 : Nat) }
          (initSession { value := (none : Option Nat), defaultValue := none, onChange := some (1 : Nat) }))) 4).2
      = [(2, 4)] :=
  (handler_freshness _ _ _ 4 1 2 rfl rfl (by decide)).1

/-- C5: Mode is re-evaluated on every read: from any session state, a
render supplying external value `w` makes the very next read report `w`;
after any controlled period (every render keeps an external value), a
render that drops the external value resumes the internal value the
session held before the controlled period — it was never modified
while controlled. -/
theorem mode_reevaluated_on_every_read (cfg1 cfg2 : Config α κ)
    (s : Session α κ) (w : α) (ops : List (Op α κ))
    (hw : cfg1.value = some w) (hops : allControlled ops = true)
    (h2 : cfg2.value = none) :
    readValue cfg1 (render cfg1 s) = some w ∧
    readValue cfg2 (render cfg2 (runOps ops (render cfg1 s)).1)
      = s.internalValue := by
  constructor
  · simp [readValue, hw]
  · have h := runOps_controlled_internal ops (render cfg1 s)
      (by simp [render, hw]) hops
    have hi : (runOps ops (render cfg1 s)).1.internalValue = s.internalValue := h.1
    simp only [render] at hi
    simp [readValue, render, h2, hi]

/-- Witness for C5: become controlled at value 8 (with one controlled
update in between), then drop the external value; the read resumes the
pre-controlled internal value 1. -/
theorem mode_reevaluated_on_every_read_witness :
    readValue { value := none, defaultValue := none, onChange := none }
      (render { value := none, defaultValue := none, onChange := none }
        (runOps [Op.update 9]
          (render { value := some 8, defaultValue := none, onChange := (none : Option Nat) }
            { internalValue := some 1, onChangeRef := none, isControlled := false })).1)
      = some 1 :=
  (mode_reevaluated_on_every_read _ _ _ 8 [Op.update 9] rfl rfl rfl).2

/-- C6 counterexample: a session created with an external value present
and a default value supplied does NOT leave its internal holder as the
absence marker — the default seeds it anyway. -/
theorem default_ignored_when_controlled_cex :
    ¬ ((initSession { value := some 0, defaultValue := some 5, onChange := (none : Option Nat) } : Session Nat Nat).internalValue = none) := by
  decide

/-- C6 amended: `defaultValue` seeds the internal holder at session
creation unconditionally — even when an external value is present — so a
session created controlled with default `D` starts its (dormant) internal
holder at `D`, not at the absence marker. -/
theorem default_seeds_internal_unconditionally (cfg : Config α κ) :
    (initSession cfg).internalValue = cfg.defaultValue := rfl

/-- C7: Reading repeatedly under the same configuration, with no update in
between, is idempotent: the reported value never changes and no handler
invocation is ever produced by reading alone. -/
theorem select_idempotent (cfg : Config α κ) (s : Session α κ) (n : ℕ) :
    readValue cfg (runOps (List.replicate n (Op.render cfg)) s).1
      = readValue cfg s ∧
    (runOps (List.replicate n (Op.render cfg)) s).2 = [] := by
  induction n generalizing s with
  | zero => simp [runOps]
  | succ n ih =>
    have h := ih (render cfg s)
    refine ⟨?_, ?_⟩
    · rw [List.replicate_succ]
      simpa [runOps, readValue, render] using h.1
    · rw [List.replicate_succ]
      simpa [runOps] using h.2

/-- C8: `update` is a total function — it never fails on any input or
configuration.  With no handler configured the notification step is
silently skipped while the mode-dependent write still happens; and when
both a default value and an external value are supplied, controlled mode
silently wins at every read. -/
theorem update_never_fails (cfg : Config α κ) (s : Session α κ) (x : α) :
    (cfg.onChange = none →
      (update (render cfg s) x).2 = [] ∧
      (update (render cfg s) x).1.internalValue
        = (if cfg.value.isSome then s.internalValue else some x)) ∧
    (∀ v d : α, cfg.value = some v → cfg.defaultValue = some d →
      readValue cfg s = some v) := by
  refine ⟨fun h => ⟨?_, ?_⟩, fun v d hv _ => ?_⟩
  · simp [update, render, h]
  · by_cases hc : cfg.value.isSome <;> simp [update, render, hc]
  · simp [readValue, hv]

/-- Witness for C8: both `value := 3` and `defaultValue := 5` supplied, no
handler: the update log is empty and the read reports the external 3. -/
theorem update_never_fails_witness :
    (update (render { value := some 3, defaultValue := some 5, onChange := none }
        (initSession { value := some 3, defaultValue := some 5, onChange := (none : Option Nat) })) 9).2 = [] ∧
    readValue { value := some 3, defaultValue := some 5, onChange := (none : Option Nat) }
      (initSession { value := some 3, defaultValue := some 5, onChange := none })
      = some 3 :=
  ⟨(update_never_fails _ _ 9).1 rfl |>.1,
   (update_never_fails _ _ 9).2 3 5 rfl rfl⟩

/-- C9: Supplying the absence marker itself as the external value is the
same configuration as supplying none (`value !== undefined` is the only
test the code makes), so the session is uncontrolled and reads report the
internal holder; consequently a controlled read never reports the marker —
a controlled session whose value is the marker is unrepresentable. -/
theorem explicit_undefined_is_uncontrolled (cfg : Config α κ) (s : Session α κ) :
    (cfg.value = none →
      readValue cfg s = s.internalValue ∧
      (render cfg s).isControlled = false ∧
      (initSession cfg).isControlled = false) ∧
    (cfg.value.isSome → (readValue cfg s).isSome) := by
  refine ⟨fun h => ⟨?_, ?_, ?_⟩, fun h => ?_⟩ <;>
    simp [readValue, render, initSession, *]

/-- Witness for C9: with `value = none` the read surfaces the internal
holder and the session is not controlled. -/
theorem explicit_undefined_is_uncontrolled_witness :
    readValue { value := none, defaultValue := some 5, onChange := (none : Option Nat) }
      (initSession { value := none, defaultValue := some 5, onChange := none })
      = some 5 :=
  ((explicit_undefined_is_uncontrolled _ _).1 rfl).1

/-- C10: A session created with an external value present and a default
`d` still seeds its internal holder with `d`; if the external value is
later removed with no update in between, the next read reports `d`. -/
theorem default_resurfaces_after_control_removed (v d : α) (oc : Option κ)
    (cfg2 : Config α κ) (h2 : cfg2.value = none) :
    (initSession { value := some v, defaultValue := some d, onChange := oc }).internalValue
      = some d ∧
    readValue cfg2 (render cfg2
        (initSession { value := some v, defaultValue := some d, onChange := oc }))
      = some d := by
  refine ⟨rfl, ?_⟩
  simp [readValue, render, initSession, h2]

/-- Witness for C10: created with external 3 and default 5, then the
external value is dropped: the read reports 5. -/
theorem default_resurfaces_after_control_removed_witness :
    readValue { value := none, defaultValue := none, onChange := none }
      (render { value := none, defaultValue := none, onChange := none }
        (initSession { value := some 3, defaultValue := some 5, onChange := (none : Option Nat) }))
      = some 5 :=
  (default_resurfaces_after_control_removed 3 5 none _ rfl).2

end UseControllable
